import Mathlib

/-!
Shallow embedding of `MPA.py` (Mobidic Prioritization Algorithm, version 0.2.1).

The program annotates VCF variant records with a composite pathogenicity
score.  The embedding below translates, function by function, the Python
source: `check_annotation`, `check_split_variants`,
`calculate_adjusted_score`, `is_clinvar_pathogenic`, `is_splice_impact`,
`is_stop_impact`, `is_frameshift_impact`, `is_missense_impact`,
`is_unknown_impact` and the per-record body of `process`.

Modelling conventions:
  * Python strings are Lean `String`; `re.search(pat, s, re.IGNORECASE)`
    for a literal pattern `pat` is a case-insensitive substring test
    (`reSearchCI`).  Calling it on `None` raises a `TypeError`, modelled
    by `PyErr.typeError` through `Except`.
  * A possibly-null first value of a multi-valued INFO field is an
    `Option`.
  * Numeric splice scores are rationals (`ℚ`); the thresholds `0.6` and
    `-2` are exact.
  * A function that returns an integer rank or Python `False` returns
    `Option ℕ` (`none` = `False`).
-/

/-- Lower-case a string character-by-character, as `re.IGNORECASE`
matching does for the ASCII patterns used by the program. -/
def lowerStr (s : String) : List Char :=
  s.data.map Char.toLower

/-- `matchesAt p s` : `p` is a prefix of `s` (on character lists). -/
def matchesAt : List Char → List Char → Bool
  | [], _ => true
  | _ :: _, [] => false
  | a :: p, b :: s => a == b && matchesAt p s

/-- `occursIn p s` : `p` occurs as a contiguous sublist of `s`. -/
def occursIn (p : List Char) : List Char → Bool
  | [] => p.isEmpty
  | b :: s => matchesAt p (b :: s) || occursIn p s

/-- `re.search(pat, s, re.IGNORECASE) is not None` for a literal
pattern: case-insensitive substring search. -/
def reSearchCI (pat s : String) : Bool :=
  occursIn (lowerStr pat) (lowerStr s)

/-- Python runtime error raised by the program: `re.search` applied to
`None` raises a `TypeError`. -/
inductive PyErr where
  | typeError
deriving DecidableEq, Repr

/-- View of an `Except` as a `Sum`, used to derive decidable equality. -/
def exceptToSum {ε α : Type} : Except ε α → ε ⊕ α
  | .error e => .inl e
  | .ok a => .inr a

instance {ε α : Type} [DecidableEq ε] [DecidableEq α] : DecidableEq (Except ε α) := fun a b =>
  decidable_of_iff (exceptToSum a = exceptToSum b)
    (by cases a <;> cases b <;> simp [exceptToSum])

/-- `re.search` on an optional subject string: raises `TypeError` when
the subject is `None` (this is what happens in `MPA.py` when the first
value of `Func.refGene` is null). -/
def reSearchOpt (pat : String) (s : Option String) : Except PyErr Bool :=
  match s with
  | none => .error .typeError
  | some t => .ok (reSearchCI pat t)

/-- The literal `vcf_keys` list of `check_annotation` in `MPA.py`
(17 entries as written; `FATHMM_pred` appears twice). -/
def vcf_keys : List String :=
  ["ExonicFunc.refGene",
   "FATHMM_pred",
   "Func.refGene",
   "dbscSNV_ADA_SCORE",
   "dbscSNV_RF_SCORE",
   "dpsi_zscore",
   "SIFT_pred",
   "Polyphen2_HDIV_pred",
   "Polyphen2_HVAR_pred",
   "LRT_pred",
   "MutationTaster_pred",
   "FATHMM_pred",
   "PROVEAN_pred",
   "fathmm-MKL_coding_pred",
   "MetaSVM_pred",
   "MetaLR_pred",
   "CLNSIG"]

/-- `check_annotation(vcf_infos)`: `sys.exit` (modelled as `Except.error`
with the exit message) unless every required key is among the header's
INFO field names. -/
def check_annotation (vcf_infos : List String) : Except String Unit :=
  if vcf_keys.all (fun k => vcf_infos.contains k) then
    .ok ()
  else
    .error "VCF not correctly annotated. See documentation and provide a well annotated vcf (annotation with annovar)."

/-- One VCF record as consumed by `process`: the structural fields and
the first value of each INFO field the program reads.  A `none` models a
null (`.`) value. -/
structure VariantRecord where
  REF : String
  ALT : List String
  is_indel : Bool
  SIFT_pred : Option String
  Polyphen2_HDIV_pred : Option String
  Polyphen2_HVAR_pred : Option String
  LRT_pred : Option String
  MutationTaster_pred : Option String
  FATHMM_pred : Option String
  PROVEAN_pred : Option String
  fathmmMKL_coding_pred : Option String
  MetaSVM_pred : Option String
  MetaLR_pred : Option String
  dbscSNV_ADA_SCORE : Option ℚ
  dbscSNV_RF_SCORE : Option ℚ
  dpsi_zscore : Option ℚ
  CLNSIG : Option String
  FuncRefGene : Option String
  ExonicFuncRefGene : Option String
deriving DecidableEq, Repr

/-- Python `str.split(',')` on a character list: the list of
comma-separated pieces (always at least one piece). -/
def splitComma : List Char → List (List Char)
  | [] => [[]]
  | c :: rest =>
    let r := splitComma rest
    if c = ',' then [] :: r
    else
      match r with
      | [] => [[c]]
      | h :: t => (c :: h) :: t

/-- `check_split_variants(record)`: `sys.exit` when the reference allele
string splits on a comma into more than one piece, or when there is more
than one alternate allele. -/
def check_split_variants (r : VariantRecord) : Except String Unit :=
  if (splitComma r.REF.data).length > 1 then
    .error "Multi references on vcf. It seems that your vcf not followed the specifications."
  else if r.ALT.length > 1 then
    .error "Multi allelic variant on vcf. See documentation and provide a well processed vcf (split variants)."
  else
    .ok ()

/-- The `impacts_scores` dictionary of `process`, in its insertion
order: SIFT, HDIV, HVAR, LRT, MutationTaster, FATHMM, PROVEAN, MKL,
SVM, LR. -/
def impacts_scores (r : VariantRecord) : List (Option String) :=
  [r.SIFT_pred, r.Polyphen2_HDIV_pred, r.Polyphen2_HVAR_pred, r.LRT_pred,
   r.MutationTaster_pred, r.FATHMM_pred, r.PROVEAN_pred,
   r.fathmmMKL_coding_pred, r.MetaSVM_pred, r.MetaLR_pred]

/-- The tallying loop of `calculate_adjusted_score`: for each predictor
value, `"D"` increments both counters, any other non-null value
increments only `available`.  Returns `(deleterious, available)`. -/
def tallyScores : List (Option String) → ℕ × ℕ
  | [] => (0, 0)
  | impact :: rest =>
    let da := tallyScores rest
    if impact = some "D" then (da.1 + 1, da.2 + 1)
    else if impact.isSome then (da.1, da.2 + 1)
    else da

/-- The dictionary returned by `calculate_adjusted_score`. -/
structure ScoreRecord where
  adjusted : ℚ
  available : ℕ
  deleterious : ℕ
deriving DecidableEq, Repr

/-- `calculate_adjusted_score(scores_impact)` from `MPA.py`. -/
def calculate_adjusted_score (scores_impact : List (Option String)) : ScoreRecord :=
  let da := tallyScores scores_impact
  let score_adjusted : ℚ := if da.2 > 0 then (da.1 : ℚ) / (da.2 : ℚ) * 10 else 0
  { adjusted := score_adjusted, available := da.2, deleterious := da.1 }

/-- `is_clinvar_pathogenic(clinsig)` from `MPA.py`: rank 1 when
`"pathogenic"` matches and neither `"benign"` nor `"conflicting"` does;
`False` (here `none`) otherwise, including on null input. -/
def is_clinvar_pathogenic (clinsig : Option String) : Option ℕ :=
  match clinsig with
  | none => none
  | some s =>
    if reSearchCI "pathogenic" s ∧ ¬ reSearchCI "benign" s ∧ ¬ reSearchCI "conflicting" s then
      some 1
    else
      none

/-- The `splices_scores` dictionary: first values of
`dbscSNV_ADA_SCORE`, `dbscSNV_RF_SCORE`, `dpsi_zscore`. -/
structure SpliceScores where
  ADA : Option ℚ
  RF : Option ℚ
  Zscore : Option ℚ
deriving DecidableEq, Repr

/-- `is_splice_impact(splices_scores, is_indel, funcRefGene)` from
`MPA.py`.  The three score predicates are computed first, then
`re.search("splicing", funcRefGene)` — which raises `TypeError` when
`funcRefGene` is null — and finally the `if/elif` cascade:
RF ≥ 0.6 → 3, else ADA ≥ 0.6 → 4, else (Zscore < -2 with ADA and RF
both absent) → 5, else (indel and text contains "splicing") → 6,
else `False`. -/
def is_splice_impact (splices_scores : SpliceScores) (is_indel : Bool)
    (funcRefGene : Option String) : Except PyErr (Option ℕ) :=
  let ADA_splice : Bool :=
    match splices_scores.ADA with
    | some a => decide (a ≥ mkRat 6 10)
    | none => false
  let RF_splice : Bool :=
    match splices_scores.RF with
    | some rf => decide (rf ≥ mkRat 6 10)
    | none => false
  let Zscore_splice : Bool :=
    match splices_scores.Zscore with
    | some z =>
      splices_scores.ADA.isNone && splices_scores.RF.isNone && decide (z < -2)
    | none => false
  match reSearchOpt "splicing" funcRefGene with
  | .error e => .error e
  | .ok match_splicing =>
    let home_splice : Bool := is_indel && match_splicing
    if RF_splice then .ok (some 3)
    else if ADA_splice then .ok (some 4)
    else if Zscore_splice then .ok (some 5)
    else if home_splice then .ok (some 6)
    else .ok none

/-- `is_stop_impact(exonicFuncRefGene)`: rank 2 on `"stopgain"` or
`"stoploss"`. -/
def is_stop_impact (exonicFuncRefGene : String) : Option ℕ :=
  if reSearchCI "stopgain" exonicFuncRefGene || reSearchCI "stoploss" exonicFuncRefGene then
    some 2
  else
    none

/-- `is_frameshift_impact(exonicFuncRefGene)`: rank 2 on `"frameshift"`
without `"nonframeshift"`. -/
def is_frameshift_impact (exonicFuncRefGene : String) : Option ℕ :=
  if reSearchCI "frameshift" exonicFuncRefGene ∧ ¬ reSearchCI "nonframeshift" exonicFuncRefGene then
    some 2
  else
    none

/-- `is_missense_impact(exonicFuncRefGene)`: rank 7 on
`"nonsynonymous_SNV"`. -/
def is_missense_impact (exonicFuncRefGene : String) : Option ℕ :=
  if reSearchCI "nonsynonymous_SNV" exonicFuncRefGene then
    some 7
  else
    none

/-- `is_unknown_impact(exonicFuncRefGene)`: rank 8 on `"unknown"`. -/
def is_unknown_impact (exonicFuncRefGene : String) : Option ℕ :=
  if reSearchCI "unknown" exonicFuncRefGene then
    some 8
  else
    none

example : reSearchCI "pathogenic" "Pathogenic" = true := by decide
example : is_clinvar_pathogenic (some "Pathogenic/Benign") = none := by decide
example : is_clinvar_pathogenic (some "Conflicting_interpretations_of_pathogenicity") = none := by decide
example : is_splice_impact ⟨some (mkRat 9 10), some (mkRat 7 10), none⟩ false (some "x") = .ok (some 3) := by decide
example : is_splice_impact ⟨none, none, some (-3)⟩ false (some "x") = .ok (some 5) := by decide
example : is_frameshift_impact "nonframeshift_insertion" = none := by decide
example : is_frameshift_impact "frameshift_insertion" = some 2 := by decide
example : is_missense_impact "nonsynonymous_SNV" = some 7 := by decide

/-- Python `s[:-1]`: drop the last character of a string. -/
def stripLast (s : String) : String :=
  ⟨s.data.dropLast⟩

/-- The `meta_impact` dictionary in its insertion order.  The base dict
holds `clinvar_pathogenicity`, `splice_impact`, `stop_impact`,
`frameshift_impact`, `unknown_impact` (in that order); inside the exonic
branch the assignment to the new key `missense_impact` appends it after
`unknown_impact`.  Modelled as an association list in that order.
`build_meta_impact` performs lines 334-365 of `process`: the clinvar
classifier, the splice classifier (which raises `TypeError` on a null
`Func.refGene`), the `re.search("exonic", ...)` test (same hazard) and,
when it applies, the four exonic sub-classifiers. -/
def build_meta_impact (r : VariantRecord) : Except PyErr (List (String × Option ℕ)) :=
  let clin := is_clinvar_pathogenic r.CLNSIG
  match is_splice_impact ⟨r.dbscSNV_ADA_SCORE, r.dbscSNV_RF_SCORE, r.dpsi_zscore⟩
      r.is_indel r.FuncRefGene with
  | .error e => .error e
  | .ok splice =>
    match reSearchOpt "exonic" r.FuncRefGene with
    | .error e => .error e
    | .ok match_exonic =>
      match r.ExonicFuncRefGene with
      | some e =>
        if match_exonic then
          .ok [("clinvar_pathogenicity", clin),
               ("splice_impact", splice),
               ("stop_impact", is_stop_impact e),
               ("frameshift_impact", is_frameshift_impact e),
               ("unknown_impact", is_unknown_impact e),
               ("missense_impact", is_missense_impact e)]
        else
          .ok [("clinvar_pathogenicity", clin),
               ("splice_impact", splice),
               ("stop_impact", none),
               ("frameshift_impact", none),
               ("unknown_impact", none)]
      | none =>
        .ok [("clinvar_pathogenicity", clin),
             ("splice_impact", splice),
             ("stop_impact", none),
             ("frameshift_impact", none),
             ("unknown_impact", none)]

/-- One iteration of the ranking loop of `process` (lines 371-379).
The state is the `MPA_impact` string built so far together with
`none` (Python `rank = False`, no `final_score` yet) or
`some (rank, final_score)` — in the source, `rank` and
`adjusted_score["final_score"]` are always assigned together.
For a fired category the name and a comma are appended to the string;
the rank is updated when `meta_impact[impact] < rank or not rank`
(Python `False` compares as `0`, and `not rank` is also true for a zero
rank, hence the `r = 0` disjunct). -/
def rankStep (adjusted : ℚ) (st : String × Option (ℕ × ℚ))
    (item : String × Option ℕ) : String × Option (ℕ × ℚ) :=
  match item.2 with
  | none => st
  | some v =>
    let s := st.1 ++ item.1 ++ ","
    let cond : Bool :=
      match st.2 with
      | none => true
      | some rf => decide (v < rf.1) || decide (rf.1 = 0)
    if cond then
      (s, some (v, if item.1 = "unknown_impact" ∨ item.1 = "missense_impact" then adjusted else 10))
    else
      (s, st.2)

/-- Lines 368-390 of `process`: the ranking loop over `meta_impact`,
the `if not rank` fallback (`rank = 8`, `MPA_impact = "NULL,"`,
`final_score = adjusted`) and the final `[:-1]` strip of the trailing
comma.  Returns `(MPA_impact, MPA_ranking, final_score)`. -/
def resolveRanking (adjusted : ℚ) (flags : List (String × Option ℕ)) : String × ℕ × ℚ :=
  match flags.foldl (rankStep adjusted) ("", none) with
  | (s, some rf) => (stripLast s, rf.1, rf.2)
  | (_, none) => (stripLast "NULL,", 8, adjusted)

/-- The six `MPA_*` INFO fields written for one record. -/
structure MPAOut where
  MPA_impact : String
  MPA_ranking : ℕ
  MPA_adjusted : ℚ
  MPA_available : ℕ
  MPA_deleterious : ℕ
  MPA_final_score : ℚ
deriving DecidableEq, Repr

/-- Outcome of the loop body of `process` for one record: the record is
either skipped by `check_split_variants` (logged, `continue`) or written
with its six `MPA_*` fields. -/
inductive RecResult where
  | skipped
  | out (o : MPAOut)
deriving DecidableEq, Repr

/-- The loop body of `process` (lines 302-395) for one record.  An
uncaught Python exception (the `TypeError` of `re.search` on a null
`Func.refGene`) is an `Except.error` and aborts the whole run. -/
def processRecord (r : VariantRecord) : Except PyErr RecResult :=
  match check_split_variants r with
  | .error _ => .ok .skipped
  | .ok _ =>
    let adj := calculate_adjusted_score (impacts_scores r)
    match build_meta_impact r with
    | .error e => .error e
    | .ok flags =>
      let res := resolveRanking adj.adjusted flags
      .ok (.out
        { MPA_impact := res.1
          MPA_ranking := res.2.1
          MPA_adjusted := adj.adjusted
          MPA_available := adj.available
          MPA_deleterious := adj.deleterious
          MPA_final_score := res.2.2 })

/-- The record loop of `process`: skipped records contribute nothing to
the output, written records are appended in order, and an uncaught
exception aborts the loop. -/
def recordsLoop : List VariantRecord → Except PyErr (List MPAOut)
  | [] => .ok []
  | r :: rest =>
    match processRecord r with
    | .error e => .error e
    | .ok .skipped => recordsLoop rest
    | .ok (.out o) =>
      match recordsLoop rest with
      | .error e => .error e
      | .ok os => .ok (o :: os)

/-- Result of `process(args, log)`: the records written to the output
file and the function's return value (`some 1` exactly when
`check_annotation` failed and the `SystemExit` was caught, logged and
turned into `return 1`; `none` for the usual fall-through `None`
return). -/
structure RunResult where
  outputs : List MPAOut
  processReturn : Option ℕ
deriving DecidableEq, Repr

/-- `process` at file level (lines 295-396): the annotation check runs
first and, on failure, the function logs and returns `1` before any
record is read; otherwise every record goes through the loop. -/
def runProcess (vcf_infos : List String) (records : List VariantRecord) :
    Except PyErr RunResult :=
  match check_annotation vcf_infos with
  | .error _ => .ok { outputs := [], processReturn := some 1 }
  | .ok _ =>
    match recordsLoop records with
    | .error e => .error e
    | .ok outs => .ok { outputs := outs, processReturn := none }

/-- Exit status of the script (`__main__`, lines 440-447): the return
value of `process(args, log)` is discarded, so the interpreter exits
with status `0` unless an exception escapes `process`, in which case
Python exits with status `1`. -/
def mainExitCode (vcf_infos : List String) (records : List VariantRecord) : ℕ :=
  match runProcess vcf_infos records with
  | .error _ => 1
  | .ok _ => 0

/-- A record with every optional field null and a benign `A`→`T`
substitution; used as a base point for concrete test inputs. -/
def baseRecord : VariantRecord :=
  { REF := "A", ALT := ["T"], is_indel := false
    SIFT_pred := none, Polyphen2_HDIV_pred := none, Polyphen2_HVAR_pred := none
    LRT_pred := none, MutationTaster_pred := none, FATHMM_pred := none
    PROVEAN_pred := none, fathmmMKL_coding_pred := none, MetaSVM_pred := none
    MetaLR_pred := none, dbscSNV_ADA_SCORE := none, dbscSNV_RF_SCORE := none
    dpsi_zscore := none, CLNSIG := none, FuncRefGene := some "intergenic"
    ExonicFuncRefGene := none }

example :
    processRecord baseRecord =
      .ok (.out { MPA_impact := "NULL", MPA_ranking := 8, MPA_adjusted := 0,
                  MPA_available := 0, MPA_deleterious := 0, MPA_final_score := 0 }) := by
  decide

/-- A record ClinVar-annotated pathogenic with a missense exonic
function. -/
def clinvarRecord : VariantRecord :=
  { baseRecord with
      CLNSIG := some "Pathogenic"
      FuncRefGene := some "exonic"
      ExonicFuncRefGene := some "nonsynonymous_SNV" }

/-- A record whose first `Func.refGene` value is null. -/
def nullFuncRecord : VariantRecord :=
  { baseRecord with FuncRefGene := none }

/-- A record carrying two alternate alleles. -/
def multiAltRecord : VariantRecord :=
  { baseRecord with ALT := ["T", "G"] }

example :
    processRecord clinvarRecord =
      .ok (.out { MPA_impact := "clinvar_pathogenicity,missense_impact", MPA_ranking := 1,
                  MPA_adjusted := 0, MPA_available := 0, MPA_deleterious := 0,
                  MPA_final_score := 10 }) := by
  decide

example : processRecord nullFuncRecord = .error .typeError := by
  decide

example : processRecord multiAltRecord = .ok .skipped := by
  decide

theorem tallyScores_fst (l : List (Option String)) :
    (tallyScores l).1 = l.countP (fun o => o == some "D") := by
  induction l with
  | nil => rfl
  | cons a t ih =>
    match a with
    | none => simpa [tallyScores, List.countP_cons] using ih
    | some s =>
      by_cases h : s = "D"
      · subst h; simpa [tallyScores, List.countP_cons] using ih
      · simp [tallyScores, List.countP_cons, h, ih]

theorem tallyScores_snd (l : List (Option String)) :
    (tallyScores l).2 = l.countP (fun o => o.isSome) := by
  induction l with
  | nil => rfl
  | cons a t ih =>
    match a with
    | none => simpa [tallyScores, List.countP_cons] using ih
    | some s =>
      by_cases h : s = "D"
      · subst h; simpa [tallyScores, List.countP_cons] using ih
      · simp [tallyScores, List.countP_cons, h, ih]

theorem tallyScores_le (l : List (Option String)) :
    (tallyScores l).1 ≤ (tallyScores l).2 ∧ (tallyScores l).2 ≤ l.length := by
  induction l with
  | nil => exact ⟨le_refl 0, le_refl 0⟩
  | cons a t ih =>
    simp only [tallyScores, List.length_cons]
    split_ifs <;> (try simp) <;> omega

/-- C2: for a predictor call set of 10 entries, `deleterious` counts the
`"D"` entries, `available` counts the non-null entries (`"D"` included),
`adjusted = deleterious / available * 10` when `available > 0` and `0`
when `available = 0`; consequently
`0 ≤ deleterious ≤ available ≤ 10` and `adjusted ∈ [0, 10]`. -/
theorem claim2_adjusted_score (scores : List (Option String)) (h : scores.length = 10) :
    (calculate_adjusted_score scores).deleterious = scores.countP (fun o => o == some "D") ∧
    (calculate_adjusted_score scores).available = scores.countP (fun o => o.isSome) ∧
    ((calculate_adjusted_score scores).available > 0 →
      (calculate_adjusted_score scores).adjusted =
        ((calculate_adjusted_score scores).deleterious : ℚ) /
          ((calculate_adjusted_score scores).available : ℚ) * 10) ∧
    ((calculate_adjusted_score scores).available = 0 →
      (calculate_adjusted_score scores).adjusted = 0) ∧
    (calculate_adjusted_score scores).deleterious ≤ (calculate_adjusted_score scores).available ∧
    (calculate_adjusted_score scores).available ≤ 10 ∧
    0 ≤ (calculate_adjusted_score scores).adjusted ∧
    (calculate_adjusted_score scores).adjusted ≤ 10 := by
  have hle := tallyScores_le scores
  simp only [calculate_adjusted_score]
  refine ⟨tallyScores_fst scores, tallyScores_snd scores, ?_, ?_, hle.1, h ▸ hle.2, ?_, ?_⟩
  · intro hpos
    simp [hpos]
  · intro hzero
    simp [hzero]
  · by_cases hpos : (tallyScores scores).2 > 0
    · simp only [hpos, reduceIte]
      positivity
    · simp [hpos]
  · by_cases hpos : (tallyScores scores).2 > 0
    · simp only [hpos, reduceIte]
      have hcast : ((tallyScores scores).1 : ℚ) ≤ ((tallyScores scores).2 : ℚ) :=
        Nat.cast_le.mpr hle.1
      have hposq : (0 : ℚ) < ((tallyScores scores).2 : ℚ) := by
        exact_mod_cast hpos
      have hdiv : ((tallyScores scores).1 : ℚ) / ((tallyScores scores).2 : ℚ) ≤ 1 :=
        (div_le_one hposq).mpr hcast
      calc ((tallyScores scores).1 : ℚ) / ((tallyScores scores).2 : ℚ) * 10
          ≤ 1 * 10 := by
            exact mul_le_mul_of_nonneg_right hdiv (by norm_num)
        _ = 10 := one_mul 10
    · simp [hpos]

theorem claim2_adjusted_score_witness :
    (List.replicate 10 (none : Option String)).length = 10 ∧
    ((calculate_adjusted_score (List.replicate 10 none)).deleterious =
        (List.replicate 10 (none : Option String)).countP (fun o => o == some "D") ∧
      (calculate_adjusted_score (List.replicate 10 none)).available =
        (List.replicate 10 (none : Option String)).countP (fun o => o.isSome) ∧
      ((calculate_adjusted_score (List.replicate 10 none)).available > 0 →
        (calculate_adjusted_score (List.replicate 10 none)).adjusted =
          ((calculate_adjusted_score (List.replicate 10 none)).deleterious : ℚ) /
            ((calculate_adjusted_score (List.replicate 10 none)).available : ℚ) * 10) ∧
      ((calculate_adjusted_score (List.replicate 10 none)).available = 0 →
        (calculate_adjusted_score (List.replicate 10 none)).adjusted = 0) ∧
      (calculate_adjusted_score (List.replicate 10 none)).deleterious ≤
        (calculate_adjusted_score (List.replicate 10 none)).available ∧
      (calculate_adjusted_score (List.replicate 10 none)).available ≤ 10 ∧
      0 ≤ (calculate_adjusted_score (List.replicate 10 none)).adjusted ∧
      (calculate_adjusted_score (List.replicate 10 none)).adjusted ≤ 10) :=
  ⟨by decide, claim2_adjusted_score (List.replicate 10 none) (by decide)⟩

/-- C4: the clinvar classifier returns rank 1 exactly when the input is
a non-null string containing `"pathogenic"` (case-insensitively) and
containing neither `"benign"` nor `"conflicting"`; every other input,
null included, yields `False` (`none`). -/
theorem claim4_clinvar_pathogenic (clinsig : Option String) :
    (is_clinvar_pathogenic clinsig = some 1 ↔
      ∃ s, clinsig = some s ∧ reSearchCI "pathogenic" s = true ∧
        reSearchCI "benign" s = false ∧ reSearchCI "conflicting" s = false) ∧
    (is_clinvar_pathogenic clinsig ≠ some 1 → is_clinvar_pathogenic clinsig = none) ∧
    is_clinvar_pathogenic none = none := by
  refine ⟨?_, ?_, rfl⟩
  · match clinsig with
    | none => simp [is_clinvar_pathogenic]
    | some s =>
      cases hp : reSearchCI "pathogenic" s <;> cases hb : reSearchCI "benign" s <;>
        cases hcf : reSearchCI "conflicting" s <;>
          simp [is_clinvar_pathogenic, hp, hb, hcf]
  · match clinsig with
    | none => intro _; rfl
    | some s =>
      cases hp : reSearchCI "pathogenic" s <;> cases hb : reSearchCI "benign" s <;>
        cases hcf : reSearchCI "conflicting" s <;>
          simp [is_clinvar_pathogenic, hp, hb, hcf]

theorem claim4_clinvar_pathogenic_witness :
    is_clinvar_pathogenic (some "Pathogenic") = some 1 ∧
    is_clinvar_pathogenic (some "Pathogenic/Benign") = none ∧
    is_clinvar_pathogenic none = none := by
  refine ⟨?_, ?_, (claim4_clinvar_pathogenic none).2.2⟩
  · exact (claim4_clinvar_pathogenic (some "Pathogenic")).1.mpr
      ⟨"Pathogenic", rfl, by decide, by decide, by decide⟩
  · exact (claim4_clinvar_pathogenic (some "Pathogenic/Benign")).2.1 (by decide)

/-- The splicing rule cascade as the specification words it (§4.4): an
ordered rule list evaluated top to bottom — RF present and ≥ 0.6 →
rank 3; else ADA present and ≥ 0.6 → rank 4; else Zscore present with
both ADA and RF absent and Zscore < -2.0 → rank 5; else an indel whose
functional-region text contains "splicing" (case-insensitively) →
rank 6; else `False`. -/
def splice_rules (ss : SpliceScores) (is_indel : Bool) (text : String) : Option ℕ :=
  if ss.RF.isSome ∧ ss.RF.getD 0 ≥ mkRat 6 10 then some 3
  else if ss.ADA.isSome ∧ ss.ADA.getD 0 ≥ mkRat 6 10 then some 4
  else if ss.Zscore.isSome ∧ ss.ADA = none ∧ ss.RF = none ∧ ss.Zscore.getD 0 < -2 then some 5
  else if is_indel ∧ reSearchCI "splicing" text then some 6
  else none

/-- C3: on every non-null functional-region text, the splice classifier
agrees with the specification's fixed-order rule cascade; in particular
when both RF and ADA qualify the RF rule fires first and the result is
rank 3. -/
theorem claim3_splice_cascade (ss : SpliceScores) (is_indel : Bool) (text : String) :
    is_splice_impact ss is_indel (some text) = Except.ok (splice_rules ss is_indel text) := by
  obtain ⟨ada, rf, z⟩ := ss
  simp only [is_splice_impact, splice_rules, reSearchOpt]
  cases ada <;> cases rf <;> cases z <;>
    simp [Option.getD] <;> split_ifs <;> simp_all

/-- The rank values of the categories that fired. -/
def firedRanks (flags : List (String × Option ℕ)) : List ℕ :=
  flags.filterMap Prod.snd

theorem firedRanks_cons_some (name : String) (v : ℕ) (t : List (String × Option ℕ)) :
    firedRanks ((name, some v) :: t) = v :: firedRanks t := by
  simp [firedRanks]

theorem firedRanks_cons_none (name : String) (t : List (String × Option ℕ)) :
    firedRanks ((name, none) :: t) = firedRanks t := by
  simp [firedRanks]

/-- Invariant satisfied by every `meta_impact` mapping the program
builds: every fired rank is positive, and a fired rank is ≥ 7 exactly
for the `unknown_impact` (8) and `missense_impact` (7) categories. -/
def goodFlags (flags : List (String × Option ℕ)) : Prop :=
  ∀ nv ∈ flags, ∀ v, nv.2 = some v →
    1 ≤ v ∧ ((nv.1 = "unknown_impact" ∨ nv.1 = "missense_impact") ↔ 7 ≤ v)

theorem rankFold_some (adjusted : ℚ) :
    ∀ (flags : List (String × Option ℕ)) (s : String) (m : ℕ),
      goodFlags flags → 1 ≤ m →
      ∃ m', (m' = m ∨ m' ∈ firedRanks flags) ∧ m' ≤ m ∧
        (∀ v ∈ firedRanks flags, m' ≤ v) ∧ 1 ≤ m' ∧
        (flags.foldl (rankStep adjusted) (s, some (m, if 7 ≤ m then adjusted else 10))).2 =
          some (m', if 7 ≤ m' then adjusted else 10) := by
  intro flags
  induction flags with
  | nil =>
    intro s m hg hm
    exact ⟨m, Or.inl rfl, le_refl m, by simp [firedRanks], hm, rfl⟩
  | cons item t ih =>
    intro s m hg hm
    have hgt : goodFlags t := fun nv h v hv => hg nv (List.mem_cons_of_mem _ h) v hv
    obtain ⟨name, opt⟩ := item
    match opt with
    | none =>
      have hstep : rankStep adjusted (s, some (m, if 7 ≤ m then adjusted else 10))
          (name, none) = (s, some (m, if 7 ≤ m then adjusted else 10)) := rfl
      obtain ⟨m', hmem, hle, hall, hm1, hfold⟩ := ih s m hgt hm
      refine ⟨m', ?_, hle, ?_, hm1, ?_⟩
      · rcases hmem with h | h
        · exact Or.inl h
        · exact Or.inr (by simpa [firedRanks] using h)
      · intro v hv
        exact hall v (by simpa [firedRanks] using hv)
      · rw [List.foldl_cons, hstep]
        exact hfold
    | some v =>
      have hv := hg (name, some v) (List.mem_cons_self _ _) v rfl
      obtain ⟨hv1, hviff⟩ := hv
      have hm0 : m ≠ 0 := by omega
      have heq : (if (name = "unknown_impact" ∨ name = "missense_impact")
          then adjusted else (10:ℚ)) = if 7 ≤ v then adjusted else 10 := by
        by_cases h7 : 7 ≤ v
        · rw [if_pos (hviff.mpr h7), if_pos h7]
        · rw [if_neg (fun hc => h7 (hviff.mp hc)), if_neg h7]
      by_cases hvm : v < m
      · have hstep : rankStep adjusted (s, some (m, if 7 ≤ m then adjusted else 10))
            (name, some v) =
            (s ++ name ++ ",", some (v, if 7 ≤ v then adjusted else 10)) := by
          simp only [rankStep]
          rw [← heq]
          simp [hvm]
        obtain ⟨m', hmem, hle, hall, hm1, hfold⟩ := ih (s ++ name ++ ",") v hgt hv1
        refine ⟨m', ?_, ?_, ?_, hm1, ?_⟩
        · rcases hmem with h | h
          · exact Or.inr (by rw [firedRanks_cons_some]; exact h ▸ List.mem_cons_self _ _)
          · exact Or.inr (by rw [firedRanks_cons_some]; exact List.mem_cons_of_mem _ h)
        · exact le_trans hle (le_of_lt hvm)
        · intro v' hv'
          rw [firedRanks_cons_some] at hv'
          rcases List.mem_cons.mp hv' with h | h
          · exact h ▸ hle
          · exact hall v' h
        · rw [List.foldl_cons, hstep]
          exact hfold
      · have hstep : rankStep adjusted (s, some (m, if 7 ≤ m then adjusted else 10))
            (name, some v) =
            (s ++ name ++ ",", some (m, if 7 ≤ m then adjusted else 10)) := by
          simp only [rankStep]
          simp [hvm, hm0]
        obtain ⟨m', hmem, hle, hall, hm1, hfold⟩ := ih (s ++ name ++ ",") m hgt hm
        refine ⟨m', ?_, hle, ?_, hm1, ?_⟩
        · rcases hmem with h | h
          · exact Or.inl h
          · exact Or.inr (by rw [firedRanks_cons_some]; exact List.mem_cons_of_mem _ h)
        · intro v' hv'
          rw [firedRanks_cons_some] at hv'
          rcases List.mem_cons.mp hv' with h | h
          · exact h ▸ le_trans hle (Nat.le_of_not_lt hvm)
          · exact hall v' h
        · rw [List.foldl_cons, hstep]
          exact hfold

theorem rankFold_none (adjusted : ℚ) :
    ∀ (flags : List (String × Option ℕ)) (s : String),
      goodFlags flags →
      (firedRanks flags = [] ∧
        (flags.foldl (rankStep adjusted) (s, none)).2 = none) ∨
      (∃ m', m' ∈ firedRanks flags ∧ (∀ v ∈ firedRanks flags, m' ≤ v) ∧ 1 ≤ m' ∧
        (flags.foldl (rankStep adjusted) (s, none)).2 =
          some (m', if 7 ≤ m' then adjusted else 10)) := by
  intro flags
  induction flags with
  | nil =>
    intro s _
    exact Or.inl ⟨rfl, rfl⟩
  | cons item t ih =>
    intro s hg
    have hgt : goodFlags t := fun nv h v hv => hg nv (List.mem_cons_of_mem _ h) v hv
    obtain ⟨name, opt⟩ := item
    match opt with
    | none =>
      have hstep : rankStep adjusted (s, none) (name, none) = (s, none) := rfl
      rcases ih s hgt with ⟨hemp, hfold⟩ | ⟨m', hmem, hall, hm1, hfold⟩
      · refine Or.inl ⟨by simpa [firedRanks] using hemp, ?_⟩
        rw [List.foldl_cons, hstep]
        exact hfold
      · refine Or.inr ⟨m', by simpa [firedRanks] using hmem, ?_, hm1, ?_⟩
        · intro v hv
          exact hall v (by simpa [firedRanks] using hv)
        · rw [List.foldl_cons, hstep]
          exact hfold
    | some v =>
      obtain ⟨hv1, hviff⟩ := hg (name, some v) (List.mem_cons_self _ _) v rfl
      have heq : (if (name = "unknown_impact" ∨ name = "missense_impact")
          then adjusted else (10:ℚ)) = if 7 ≤ v then adjusted else 10 := by
        by_cases h7 : 7 ≤ v
        · rw [if_pos (hviff.mpr h7), if_pos h7]
        · rw [if_neg (fun hc => h7 (hviff.mp hc)), if_neg h7]
      have hstep : rankStep adjusted (s, none) (name, some v) =
          (s ++ name ++ ",", some (v, if 7 ≤ v then adjusted else 10)) := by
        simp only [rankStep]
        rw [← heq]
        simp
      obtain ⟨m', hmem, hle, hall, hm1, hfold⟩ :=
        rankFold_some adjusted t (s ++ name ++ ",") v hgt hv1
      refine Or.inr ⟨m', ?_, ?_, hm1, ?_⟩
      · rcases hmem with h | h
        · rw [firedRanks_cons_some]; exact h ▸ List.mem_cons_self _ _
        · rw [firedRanks_cons_some]; exact List.mem_cons_of_mem _ h
      · intro v' hv'
        rw [firedRanks_cons_some] at hv'
        rcases List.mem_cons.mp hv' with h | h
        · exact h ▸ hle
        · exact hall v' h
      · rw [List.foldl_cons, hstep]
        exact hfold

theorem is_clinvar_pathogenic_val (c : Option String) (v : ℕ)
    (h : is_clinvar_pathogenic c = some v) : v = 1 := by
  match c with
  | none => simp [is_clinvar_pathogenic] at h
  | some s =>
    simp only [is_clinvar_pathogenic] at h
    split at h <;> simp_all

theorem is_splice_impact_none (ss : SpliceScores) (i : Bool) :
    is_splice_impact ss i none = .error .typeError := by
  simp [is_splice_impact, reSearchOpt]

theorem is_splice_impact_val (ss : SpliceScores) (i : Bool) (fg : Option String) (v : ℕ)
    (h : is_splice_impact ss i fg = .ok (some v)) : 3 ≤ v ∧ v ≤ 6 := by
  match fg with
  | none => rw [is_splice_impact_none] at h; simp at h
  | some t =>
    simp only [is_splice_impact, reSearchOpt] at h
    split_ifs at h <;> simp_all <;> omega

theorem is_stop_impact_val (e : String) (v : ℕ) (h : is_stop_impact e = some v) : v = 2 := by
  simp only [is_stop_impact] at h
  split at h <;> simp_all

theorem is_frameshift_impact_val (e : String) (v : ℕ)
    (h : is_frameshift_impact e = some v) : v = 2 := by
  simp only [is_frameshift_impact] at h
  split at h <;> simp_all

theorem is_missense_impact_val (e : String) (v : ℕ)
    (h : is_missense_impact e = some v) : v = 7 := by
  simp only [is_missense_impact] at h
  split at h <;> simp_all

theorem is_unknown_impact_val (e : String) (v : ℕ)
    (h : is_unknown_impact e = some v) : v = 8 := by
  simp only [is_unknown_impact] at h
  split at h <;> simp_all

theorem build_meta_good (r : VariantRecord) (flags : List (String × Option ℕ))
    (hf : build_meta_impact r = .ok flags) : goodFlags flags := by
  match hfg : r.FuncRefGene with
  | none =>
    simp [build_meta_impact, hfg, is_splice_impact_none] at hf
  | some t =>
    rcases hsp : is_splice_impact ⟨r.dbscSNV_ADA_SCORE, r.dbscSNV_RF_SCORE, r.dpsi_zscore⟩
        r.is_indel (some t) with e | splice
    · simp [build_meta_impact, hfg, reSearchOpt, hsp] at hf
    · have hspv : ∀ v, splice = some v → 3 ≤ v ∧ v ≤ 6 := by
        intro v hv
        exact is_splice_impact_val _ _ _ v (hv ▸ hsp)
      match hex : r.ExonicFuncRefGene with
      | some e =>
        by_cases hexonic : reSearchCI "exonic" t = true
        · have hflags : flags =
              [("clinvar_pathogenicity", is_clinvar_pathogenic r.CLNSIG),
               ("splice_impact", splice),
               ("stop_impact", is_stop_impact e),
               ("frameshift_impact", is_frameshift_impact e),
               ("unknown_impact", is_unknown_impact e),
               ("missense_impact", is_missense_impact e)] := by
            simp [build_meta_impact, hfg, reSearchOpt, hsp, hex, hexonic] at hf
            exact hf.symm
          subst hflags
          intro nv hnv v hv
          simp only [List.mem_cons, List.mem_singleton] at hnv
          rcases hnv with h | h | h | h | h | h | h
          · subst h; have := is_clinvar_pathogenic_val _ _ hv; subst this; simp
          · subst h
            obtain ⟨h3, h6⟩ := hspv v hv
            exact ⟨by omega, Iff.intro (fun hc => by simp at hc) (fun hc => absurd hc (by omega))⟩
          · subst h; have := is_stop_impact_val _ _ hv; subst this; simp
          · subst h; have := is_frameshift_impact_val _ _ hv; subst this; simp
          · subst h; have := is_unknown_impact_val _ _ hv; subst this; simp
          · subst h; have := is_missense_impact_val _ _ hv; subst this; simp
          · simp at h
        · have hflags : flags =
              [("clinvar_pathogenicity", is_clinvar_pathogenic r.CLNSIG),
               ("splice_impact", splice),
               ("stop_impact", none),
               ("frameshift_impact", none),
               ("unknown_impact", none)] := by
            simp [build_meta_impact, hfg, reSearchOpt, hsp, hex, hexonic] at hf
            exact hf.symm
          subst hflags
          intro nv hnv v hv
          simp only [List.mem_cons, List.mem_singleton] at hnv
          rcases hnv with h | h | h | h | h | h
          · subst h; have := is_clinvar_pathogenic_val _ _ hv; subst this; simp
          · subst h
            obtain ⟨h3, h6⟩ := hspv v hv
            exact ⟨by omega, Iff.intro (fun hc => by simp at hc) (fun hc => absurd hc (by omega))⟩
          · subst h; simp at hv
          · subst h; simp at hv
          · subst h; simp at hv
          · simp at h
      | none =>
        have hflags : flags =
            [("clinvar_pathogenicity", is_clinvar_pathogenic r.CLNSIG),
             ("splice_impact", splice),
             ("stop_impact", none),
             ("frameshift_impact", none),
             ("unknown_impact", none)] := by
          simp [build_meta_impact, hfg, reSearchOpt, hsp, hex] at hf
          exact hf.symm
        subst hflags
        intro nv hnv v hv
        simp only [List.mem_cons, List.mem_singleton] at hnv
        rcases hnv with h | h | h | h | h | h
        · subst h; have := is_clinvar_pathogenic_val _ _ hv; subst this; simp
        · subst h
          obtain ⟨h3, h6⟩ := hspv v hv
          exact ⟨by omega, Iff.intro (fun hc => by simp at hc) (fun hc => absurd hc (by omega))⟩
        · subst h; simp at hv
        · subst h; simp at hv
        · subst h; simp at hv
        · simp at h

/-- C1: for every processed record, `MPA_ranking` is the minimum rank
among the categories that fired; `final_score` is the adjusted score
exactly when that minimum is ≥ 7 — which, by the `goodFlags` invariant
(also part of the statement), happens exactly when the winning category
is `missense_impact` (7) or `unknown_impact` (8) — and `10` for every
other winning category; and when no category fired the record gets
`MPA_ranking = 8`, `MPA_impact = "NULL"` and `final_score` equal to the
adjusted score. -/
theorem claim1_ranking_resolver (r : VariantRecord) (o : MPAOut)
    (flags : List (String × Option ℕ))
    (hp : processRecord r = .ok (.out o))
    (hf : build_meta_impact r = .ok flags) :
    goodFlags flags ∧
    (firedRanks flags = [] →
      o.MPA_ranking = 8 ∧ o.MPA_impact = "NULL" ∧ o.MPA_final_score = o.MPA_adjusted) ∧
    (firedRanks flags ≠ [] →
      o.MPA_ranking ∈ firedRanks flags ∧
      (∀ v ∈ firedRanks flags, o.MPA_ranking ≤ v) ∧
      o.MPA_final_score = (if 7 ≤ o.MPA_ranking then o.MPA_adjusted else 10)) := by
  have hg := build_meta_good r flags hf
  rcases hcsv : check_split_variants r with e | u
  · simp [processRecord, hcsv] at hp
  · simp only [processRecord, hcsv, hf, Except.ok.injEq, RecResult.out.injEq] at hp
    subst hp
    rcases rankFold_none (calculate_adjusted_score (impacts_scores r)).adjusted flags "" hg
      with ⟨hemp, hfold⟩ | ⟨m', hmem, hall, hm1, hfold⟩
    · have hres : resolveRanking (calculate_adjusted_score (impacts_scores r)).adjusted flags =
          ("NULL", 8, (calculate_adjusted_score (impacts_scores r)).adjusted) := by
        unfold resolveRanking
        rcases hfd : flags.foldl
            (rankStep (calculate_adjusted_score (impacts_scores r)).adjusted) ("", none)
          with ⟨s', st'⟩
        rw [hfd] at hfold
        simp only at hfold
        subst hfold
        exact congrArg (fun x => (x, 8, (calculate_adjusted_score (impacts_scores r)).adjusted))
          (by decide : stripLast "NULL," = "NULL")
      refine ⟨hg, fun _ => ?_, fun hne => absurd hemp hne⟩
      simp only [hres]
      exact ⟨trivial, trivial, trivial⟩
    · have hres : (resolveRanking (calculate_adjusted_score (impacts_scores r)).adjusted flags).2 =
          (m', if 7 ≤ m' then (calculate_adjusted_score (impacts_scores r)).adjusted else 10) := by
        unfold resolveRanking
        rcases hfd : flags.foldl
            (rankStep (calculate_adjusted_score (impacts_scores r)).adjusted) ("", none)
          with ⟨s', st'⟩
        rw [hfd] at hfold
        simp only at hfold
        subst hfold
        rfl
      refine ⟨hg, fun hemp => absurd (hemp ▸ hmem) (List.not_mem_nil m'), fun _ => ?_⟩
      refine ⟨?_, ?_, ?_⟩
      · simpa only [hres] using hmem
      · intro v hv
        simpa only [hres] using hall v hv
      · simp only [hres]

/-- The output record `process` writes for `clinvarRecord`. -/
def clinvarOut : MPAOut :=
  { MPA_impact := "clinvar_pathogenicity,missense_impact", MPA_ranking := 1,
    MPA_adjusted := 0, MPA_available := 0, MPA_deleterious := 0, MPA_final_score := 10 }

/-- The `meta_impact` mapping `process` builds for `clinvarRecord`. -/
def clinvarFlags : List (String × Option ℕ) :=
  [("clinvar_pathogenicity", some 1), ("splice_impact", none), ("stop_impact", none),
   ("frameshift_impact", none), ("unknown_impact", none), ("missense_impact", some 7)]

theorem claim1_ranking_resolver_witness :
    processRecord clinvarRecord = .ok (.out clinvarOut) ∧
    build_meta_impact clinvarRecord = .ok clinvarFlags ∧
    (goodFlags clinvarFlags ∧
      (firedRanks clinvarFlags = [] →
        clinvarOut.MPA_ranking = 8 ∧ clinvarOut.MPA_impact = "NULL" ∧
        clinvarOut.MPA_final_score = clinvarOut.MPA_adjusted) ∧
      (firedRanks clinvarFlags ≠ [] →
        clinvarOut.MPA_ranking ∈ firedRanks clinvarFlags ∧
        (∀ v ∈ firedRanks clinvarFlags, clinvarOut.MPA_ranking ≤ v) ∧
        clinvarOut.MPA_final_score =
          (if 7 ≤ clinvarOut.MPA_ranking then clinvarOut.MPA_adjusted else 10))) :=
  ⟨by decide, by decide,
   claim1_ranking_resolver clinvarRecord clinvarOut clinvarFlags (by decide) (by decide)⟩

/-- C6: the run-level annotation gate — if any key of the required-key
list is missing from the header's INFO names, `process` returns `1`
with an empty output before touching any record; if every key is
present the check passes. -/
theorem claim6_annotation_gate (vcf_infos : List String) (records : List VariantRecord) :
    ((∃ k ∈ vcf_keys, k ∉ vcf_infos) →
      runProcess vcf_infos records = .ok { outputs := [], processReturn := some 1 }) ∧
    ((∀ k ∈ vcf_keys, k ∈ vcf_infos) → check_annotation vcf_infos = .ok ()) := by
  constructor
  · rintro ⟨k, hk, hnk⟩
    have hcond : ¬ ∀ x ∈ vcf_keys, x ∈ vcf_infos := fun hx => hnk (hx k hk)
    simp [runProcess, check_annotation, hcond]
  · intro h
    simpa [ check_annotation] using h

/-- The 16-name header obtained by leaving `CLNSIG` out of the required
annotation names. -/
def missingClnsigHeader : List String :=
  ["ExonicFunc.refGene", "FATHMM_pred", "Func.refGene", "dbscSNV_ADA_SCORE",
   "dbscSNV_RF_SCORE", "dpsi_zscore", "SIFT_pred", "Polyphen2_HDIV_pred",
   "Polyphen2_HVAR_pred", "LRT_pred", "MutationTaster_pred", "PROVEAN_pred",
   "fathmm-MKL_coding_pred", "MetaSVM_pred", "MetaLR_pred"]

theorem claim6_annotation_gate_witness :
    (∃ k ∈ vcf_keys, k ∉ missingClnsigHeader) ∧
    runProcess missingClnsigHeader [baseRecord] = .ok { outputs := [], processReturn := some 1 } ∧
    check_annotation vcf_keys = .ok () :=
  ⟨⟨"CLNSIG", by decide, by decide⟩,
   (claim6_annotation_gate missingClnsigHeader [baseRecord]).1 ⟨"CLNSIG", by decide, by decide⟩,
   (claim6_annotation_gate vcf_keys []).2 (fun k hk => hk)⟩

/-- C7 (code bug): on a header missing `CLNSIG`, `process` logs the
cause and returns `1` with no record processed, but `__main__` discards
that return value, so the interpreter exits with status `0`, not the
non-zero status the specification requires. -/
theorem claim7_exit_status :
    runProcess missingClnsigHeader [baseRecord] =
      .ok { outputs := [], processReturn := some 1 } ∧
    mainExitCode missingClnsigHeader [baseRecord] = 0 := by
  constructor <;> decide

/-- C8: a record with a multi-valued reference allele or more than one
alternate allele is skipped — `processRecord` yields `skipped`, and the
record loop on any remaining records is unchanged, so the record is
absent from the output and processing continues. -/
theorem claim8_skip_bad_alleles (r : VariantRecord)
    (h : (splitComma r.REF.data).length > 1 ∨ r.ALT.length > 1) :
    processRecord r = .ok .skipped ∧
    ∀ rest, recordsLoop (r :: rest) = recordsLoop rest := by
  have hpr : processRecord r = .ok .skipped := by
    rcases hc : check_split_variants r with msg | u
    · simp [processRecord, hc]
    · exfalso
      simp only [check_split_variants] at hc
      split_ifs at hc with h1 h2
      · rcases h with h | h
        · exact h1 h
        · exact h2 h
  exact ⟨hpr, fun rest => by simp [recordsLoop, hpr]⟩

theorem claim8_skip_bad_alleles_witness :
    ((splitComma multiAltRecord.REF.data).length > 1 ∨ multiAltRecord.ALT.length > 1) ∧
    (processRecord multiAltRecord = .ok .skipped ∧
      ∀ rest, recordsLoop (multiAltRecord :: rest) = recordsLoop rest) :=
  ⟨by decide, claim8_skip_bad_alleles multiAltRecord (by decide)⟩

/-- C9 fails as stated: a null first value of `Func.refGene` reaches
`re.search("splicing", None)` inside the splice classifier and raises
`TypeError`, aborting the record and with it the run. -/
theorem claim9_counterexample :
    processRecord nullFuncRecord = Except.error PyErr.typeError := by
  decide

theorem build_meta_no_error (r : VariantRecord) (t : String)
    (h : r.FuncRefGene = some t) (e : PyErr) : build_meta_impact r ≠ .error e := by
  intro hbm
  have hsp : ∃ sp, is_splice_impact ⟨r.dbscSNV_ADA_SCORE, r.dbscSNV_RF_SCORE, r.dpsi_zscore⟩
      r.is_indel (some t) = .ok sp := by
    simp only [is_splice_impact, reSearchOpt]
    split_ifs <;> exact ⟨_, rfl⟩
  obtain ⟨sp, hsp⟩ := hsp
  match hex : r.ExonicFuncRefGene with
  | some e2 =>
    by_cases hexonic : reSearchCI "exonic" t = true <;>
      simp [build_meta_impact, h, reSearchOpt, hsp, hex, hexonic] at hbm
  | none =>
    simp [build_meta_impact, h, reSearchOpt, hsp, hex] at hbm

/-- C9 (amended): a null first value in any consumed annotation field
other than `Func.refGene` is treated as absent data and never raises:
whenever `Func.refGene` itself is non-null the record body completes
without an exception, whatever the other fields hold. -/
theorem claim9_null_fields_safe (r : VariantRecord) (t : String)
    (h : r.FuncRefGene = some t) (e : PyErr) : processRecord r ≠ Except.error e := by
  intro hpr
  rcases hc : check_split_variants r with msg | u
  · simp [processRecord, hc] at hpr
  · rcases hbm : build_meta_impact r with e2 | flags
    · exact build_meta_no_error r t h e2 hbm
    · simp [processRecord, hc, hbm] at hpr

theorem claim9_null_fields_safe_witness :
    baseRecord.FuncRefGene = some "intergenic" ∧
    processRecord baseRecord ≠ Except.error PyErr.typeError :=
  ⟨by decide, claim9_null_fields_safe baseRecord "intergenic" (by decide) PyErr.typeError⟩

/-- C5: the four exonic sub-classifications are computed exactly when
the functional-region text contains `"exonic"` (case-insensitively) and
the exonic-function first value is non-null; otherwise `stop_impact`,
`frameshift_impact` and `unknown_impact` stay `False` and
`missense_impact` is absent from the flags mapping.  In the exonic case
the four sub-ranks are the source rules: 2 on `"stopgain"`/`"stoploss"`,
2 on `"frameshift"` without `"nonframeshift"`, 7 on
`"nonsynonymous_SNV"`, 8 on `"unknown"`, all case-insensitive. -/
theorem claim5_exonic_sub (r : VariantRecord) (t : String)
    (flags : List (String × Option ℕ))
    (ht : r.FuncRefGene = some t) (hf : build_meta_impact r = .ok flags) :
    ((reSearchCI "exonic" t = false ∨ r.ExonicFuncRefGene = none) →
      flags.lookup "stop_impact" = some none ∧
      flags.lookup "frameshift_impact" = some none ∧
      flags.lookup "unknown_impact" = some none ∧
      flags.lookup "missense_impact" = none) ∧
    (∀ e, reSearchCI "exonic" t = true → r.ExonicFuncRefGene = some e →
      flags.lookup "stop_impact" =
        some (if reSearchCI "stopgain" e || reSearchCI "stoploss" e then some 2 else none) ∧
      flags.lookup "frameshift_impact" =
        some (if reSearchCI "frameshift" e ∧ ¬ reSearchCI "nonframeshift" e then some 2
          else none) ∧
      flags.lookup "missense_impact" =
        some (if reSearchCI "nonsynonymous_SNV" e then some 7 else none) ∧
      flags.lookup "unknown_impact" =
        some (if reSearchCI "unknown" e then some 8 else none)) := by
  rcases hsp : is_splice_impact ⟨r.dbscSNV_ADA_SCORE, r.dbscSNV_RF_SCORE, r.dpsi_zscore⟩
      r.is_indel (some t) with e0 | splice
  · simp [build_meta_impact, ht, reSearchOpt, hsp] at hf
  · constructor
    · intro hcase
      have hflags : flags =
          [("clinvar_pathogenicity", is_clinvar_pathogenic r.CLNSIG),
           ("splice_impact", splice),
           ("stop_impact", none),
           ("frameshift_impact", none),
           ("unknown_impact", none)] := by
        match hex : r.ExonicFuncRefGene with
        | none =>
          simp [build_meta_impact, ht, reSearchOpt, hsp, hex] at hf
          exact hf.symm
        | some e =>
          rcases hcase with hc | hc
          · simp [build_meta_impact, ht, reSearchOpt, hsp, hex, hc] at hf
            exact hf.symm
          · simp [hc] at hex
      subst hflags
      refine ⟨?_, ?_, ?_, ?_⟩ <;> simp [List.lookup]
    · intro e hexonic hex
      have hflags : flags =
          [("clinvar_pathogenicity", is_clinvar_pathogenic r.CLNSIG),
           ("splice_impact", splice),
           ("stop_impact", is_stop_impact e),
           ("frameshift_impact", is_frameshift_impact e),
           ("unknown_impact", is_unknown_impact e),
           ("missense_impact", is_missense_impact e)] := by
        simp [build_meta_impact, ht, reSearchOpt, hsp, hex, hexonic] at hf
        exact hf.symm
      subst hflags
      refine ⟨?_, ?_, ?_, ?_⟩ <;>
        simp [List.lookup, is_stop_impact, is_frameshift_impact, is_missense_impact,
          is_unknown_impact]

theorem claim5_exonic_sub_witness :
    clinvarRecord.FuncRefGene = some "exonic" ∧
    build_meta_impact clinvarRecord = .ok clinvarFlags ∧
    (((reSearchCI "exonic" "exonic" = false ∨ clinvarRecord.ExonicFuncRefGene = none) →
      clinvarFlags.lookup "stop_impact" = some none ∧
      clinvarFlags.lookup "frameshift_impact" = some none ∧
      clinvarFlags.lookup "unknown_impact" = some none ∧
      clinvarFlags.lookup "missense_impact" = none) ∧
    (∀ e, reSearchCI "exonic" "exonic" = true → clinvarRecord.ExonicFuncRefGene = some e →
      clinvarFlags.lookup "stop_impact" =
        some (if reSearchCI "stopgain" e || reSearchCI "stoploss" e then some 2 else none) ∧
      clinvarFlags.lookup "frameshift_impact" =
        some (if reSearchCI "frameshift" e ∧ ¬ reSearchCI "nonframeshift" e then some 2
          else none) ∧
      clinvarFlags.lookup "missense_impact" =
        some (if reSearchCI "nonsynonymous_SNV" e then some 7 else none) ∧
      clinvarFlags.lookup "unknown_impact" =
        some (if reSearchCI "unknown" e then some 8 else none))) :=
  ⟨by decide, by decide,
   claim5_exonic_sub clinvarRecord "exonic" clinvarFlags (by decide) (by decide)⟩

/-- The names of the categories that fired, in the order of the flags
mapping. -/
def firedNames (flags : List (String × Option ℕ)) : List String :=
  flags.filterMap (fun nv => if nv.2.isSome then some nv.1 else none)

theorem firedNames_cons_some (name : String) (v : ℕ) (t : List (String × Option ℕ)) :
    firedNames ((name, some v) :: t) = name :: firedNames t := by
  simp [firedNames]

theorem firedNames_cons_none (name : String) (t : List (String × Option ℕ)) :
    firedNames ((name, none) :: t) = firedNames t := by
  simp [firedNames]

theorem firedRanks_eq_nil_iff (flags : List (String × Option ℕ)) :
    firedRanks flags = [] ↔ firedNames flags = [] := by
  induction flags with
  | nil => simp [firedRanks, firedNames]
  | cons item t ih =>
    obtain ⟨name, opt⟩ := item
    match opt with
    | none => rw [firedRanks_cons_none, firedNames_cons_none]; exact ih
    | some v => rw [firedRanks_cons_some, firedNames_cons_some]; simp

/-- The characters of the `MPA_impact` string before the final strip:
each fired name followed by a comma. -/
def tagJoin : List String → List Char
  | [] => []
  | n :: t => n.data ++ ',' :: tagJoin t

theorem rankFold_str (adjusted : ℚ) :
    ∀ (flags : List (String × Option ℕ)) (s : String) (st : Option (ℕ × ℚ)),
      ((flags.foldl (rankStep adjusted) (s, st)).1).data =
        s.data ++ tagJoin (firedNames flags) := by
  intro flags
  induction flags with
  | nil =>
    intro s st
    simp [firedNames, tagJoin]
  | cons item t ih =>
    intro s st
    obtain ⟨name, opt⟩ := item
    match opt with
    | none =>
      have hstep : rankStep adjusted (s, st) (name, none) = (s, st) := rfl
      rw [List.foldl_cons, hstep, ih, firedNames_cons_none]
    | some v =>
      have hstep1 : (rankStep adjusted (s, st) (name, some v)).1 = s ++ name ++ "," := by
        simp only [rankStep]
        split <;> rfl
      rw [List.foldl_cons, ← Prod.mk.eta (p := rankStep adjusted (s, st) (name, some v)),
        hstep1, ih, firedNames_cons_some]
      simp [tagJoin, String.data_append]

/-- Comma-joined list of names with no trailing comma. -/
def commaJoin : List String → String
  | [] => ""
  | [n] => n
  | n :: m :: t => n ++ "," ++ commaJoin (m :: t)

theorem tagJoin_ne_nil (n : String) (t : List String) : tagJoin (n :: t) ≠ [] := by
  simp only [tagJoin]
  intro h
  have := congrArg List.length h
  simp at this

theorem commaJoin_data :
    ∀ (names : List String), names ≠ [] →
      (commaJoin names).data = (tagJoin names).dropLast := by
  intro names
  induction names with
  | nil => intro h; exact absurd rfl h
  | cons n t ih =>
    intro _
    match t with
    | [] =>
      show n.data = (n.data ++ [',']).dropLast
      rw [List.dropLast_concat]
    | m :: t2 =>
      have hne : tagJoin (m :: t2) ≠ [] := tagJoin_ne_nil m t2
      show (n ++ "," ++ commaJoin (m :: t2)).data =
        (n.data ++ ',' :: tagJoin (m :: t2)).dropLast
      rw [String.data_append, String.data_append, ih (by simp)]
      have h1 : (n.data ++ ',' :: tagJoin (m :: t2)).dropLast =
          n.data ++ (',' :: tagJoin (m :: t2)).dropLast :=
        List.dropLast_append_of_ne_nil _ (by simp)
      have h2 : ((',' :: tagJoin (m :: t2)) : List Char).dropLast =
          ',' :: (tagJoin (m :: t2)).dropLast := by
        show (([','] : List Char) ++ tagJoin (m :: t2)).dropLast = _
        rw [List.dropLast_append_of_ne_nil _ hne]
        rfl
      rw [h1, h2]
      simp [String.data]

/-- C10: for every processed record with at least one fired category,
`MPA_impact` is the comma-join (no trailing comma) of the names of
exactly the fired categories, taken in the fixed flags order
`clinvar_pathogenicity, splice_impact, stop_impact, frameshift_impact,
unknown_impact, missense_impact` — `missense_impact` always last,
because its key is inserted into the mapping only inside the exonic
branch. -/
theorem claim10_impact_order (r : VariantRecord) (o : MPAOut)
    (flags : List (String × Option ℕ))
    (hp : processRecord r = .ok (.out o))
    (hf : build_meta_impact r = .ok flags)
    (hne : firedNames flags ≠ []) :
    o.MPA_impact = commaJoin (firedNames flags) ∧
    firedNames flags =
      ["clinvar_pathogenicity", "splice_impact", "stop_impact", "frameshift_impact",
       "unknown_impact", "missense_impact"].filter
        (fun n => ((flags.lookup n).bind id).isSome) := by
  have hg := build_meta_good r flags hf
  constructor
  · rcases hcsv : check_split_variants r with e | u
    · simp [processRecord, hcsv] at hp
    · simp only [processRecord, hcsv, hf, Except.ok.injEq, RecResult.out.injEq] at hp
      subst hp
      have hfr : firedRanks flags ≠ [] := fun h0 => hne ((firedRanks_eq_nil_iff flags).mp h0)
      rcases rankFold_none (calculate_adjusted_score (impacts_scores r)).adjusted flags "" hg
        with ⟨hemp, _⟩ | ⟨m', hmem, hall, hm1, hfold⟩
      · exact absurd hemp hfr
      · show (resolveRanking (calculate_adjusted_score (impacts_scores r)).adjusted flags).1 =
          commaJoin (firedNames flags)
        unfold resolveRanking
        rcases hfd : flags.foldl
            (rankStep (calculate_adjusted_score (impacts_scores r)).adjusted) ("", none)
          with ⟨s', st'⟩
        rw [hfd] at hfold
        simp only at hfold
        subst hfold
        show stripLast s' = commaJoin (firedNames flags)
        have hdata : s'.data = tagJoin (firedNames flags) := by
          have hh := rankFold_str (calculate_adjusted_score (impacts_scores r)).adjusted
            flags "" none
          rw [hfd] at hh
          simpa using hh
        show (⟨s'.data.dropLast⟩ : String) = commaJoin (firedNames flags)
        rw [hdata, ← commaJoin_data _ hne]
  · match hfg : r.FuncRefGene with
    | none => simp [build_meta_impact, hfg, is_splice_impact_none] at hf
    | some t =>
      rcases hsp : is_splice_impact ⟨r.dbscSNV_ADA_SCORE, r.dbscSNV_RF_SCORE, r.dpsi_zscore⟩
          r.is_indel (some t) with e0 | splice
      · simp [build_meta_impact, hfg, reSearchOpt, hsp] at hf
      · match hex : r.ExonicFuncRefGene with
        | some e =>
          by_cases hexonic : reSearchCI "exonic" t = true
          · have hflags : flags =
                [("clinvar_pathogenicity", is_clinvar_pathogenic r.CLNSIG),
                 ("splice_impact", splice),
                 ("stop_impact", is_stop_impact e),
                 ("frameshift_impact", is_frameshift_impact e),
                 ("unknown_impact", is_unknown_impact e),
                 ("missense_impact", is_missense_impact e)] := by
              simp [build_meta_impact, hfg, reSearchOpt, hsp, hex, hexonic] at hf
              exact hf.symm
            subst hflags
            rcases hc1 : is_clinvar_pathogenic r.CLNSIG with _ | v1 <;>
            rcases hc2 : splice with _ | v2 <;>
            rcases hc3 : is_stop_impact e with _ | v3 <;>
            rcases hc4 : is_frameshift_impact e with _ | v4 <;>
            rcases hc5 : is_unknown_impact e with _ | v5 <;>
            rcases hc6 : is_missense_impact e with _ | v6 <;>
              simp [firedNames, List.lookup]
          · have hflags : flags =
                [("clinvar_pathogenicity", is_clinvar_pathogenic r.CLNSIG),
                 ("splice_impact", splice),
                 ("stop_impact", none),
                 ("frameshift_impact", none),
                 ("unknown_impact", none)] := by
              simp [build_meta_impact, hfg, reSearchOpt, hsp, hex, hexonic] at hf
              exact hf.symm
            subst hflags
            rcases hc1 : is_clinvar_pathogenic r.CLNSIG with _ | v1 <;>
            rcases hc2 : splice with _ | v2 <;>
              simp [firedNames, List.lookup]
        | none =>
          have hflags : flags =
              [("clinvar_pathogenicity", is_clinvar_pathogenic r.CLNSIG),
               ("splice_impact", splice),
               ("stop_impact", none),
               ("frameshift_impact", none),
               ("unknown_impact", none)] := by
            simp [build_meta_impact, hfg, reSearchOpt, hsp, hex] at hf
            exact hf.symm
          subst hflags
          rcases hc1 : is_clinvar_pathogenic r.CLNSIG with _ | v1 <;>
          rcases hc2 : splice with _ | v2 <;>
            simp [firedNames, List.lookup]

theorem claim10_impact_order_witness :
    processRecord clinvarRecord = .ok (.out clinvarOut) ∧
    build_meta_impact clinvarRecord = .ok clinvarFlags ∧
    firedNames clinvarFlags ≠ [] ∧
    (clinvarOut.MPA_impact = commaJoin (firedNames clinvarFlags) ∧
      firedNames clinvarFlags =
        ["clinvar_pathogenicity", "splice_impact", "stop_impact", "frameshift_impact",
         "unknown_impact", "missense_impact"].filter
          (fun n => ((clinvarFlags.lookup n).bind id).isSome)) :=
  ⟨by decide, by decide, by decide,
   claim10_impact_order clinvarRecord clinvarOut clinvarFlags (by decide) (by decide) (by decide)⟩
